import Mathlib

/-!
Verification of `flask_mongoengine/__init__.py` (srinivas365/flask-mongoengine).

Shallow embedding conventions:
* Python exceptions are explicit result constructors.
* Python truthiness is modelled explicitly where the source relies on it:
  a string is truthy iff non-empty, an integer is truthy iff non-zero, a
  mapping is truthy iff non-empty, `None` is falsy.
* Object identity (used as a dictionary key in `app.extensions["mongoengine"]`)
  is modelled by a natural-number id.
* Python dictionaries that the code iterates or updates are modelled as
  insertion-ordered association lists.
-/

set_option autoImplicit false

namespace FlaskME

/-- Truthiness of an optional string-valued Python argument
(`None` or a string): falsy when `None` or the empty string. -/
def msgTruthy : Option String → Bool
  | none => false
  | some s => s ≠ ""

/-- Errors the underlying mongoengine query layer can raise from `get`.
`doesNotExist` is `mongoengine.errors.DoesNotExist`; everything else
(`MultipleObjectsReturned`, driver failures, ...) is kept abstract. -/
inductive QError where
  | doesNotExist
  | multipleObjectsReturned
  | otherError (code : Nat)
deriving DecidableEq, Repr

/-- Result of a helper on `BaseQuerySet`: a normal return value, a Flask
`abort(404, ...)` (werkzeug HTTP exception, with the description argument
when one was passed to `abort`), or a propagated query-layer exception. -/
inductive Outcome (α : Type) where
  | ok (a : α)
  | httpAbort (status : Nat) (msg : Option String)
  | queryError (e : QError)
deriving DecidableEq, Repr

/-- `BaseQuerySet._abort_404` from the source:
`abort(404, _message_404) if _message_404 else abort(404)`.
The message is attached only when it is truthy (non-`None` and non-empty). -/
def abort_404 {α : Type} (m : Option String) : Outcome α :=
  if msgTruthy m then .httpAbort 404 m else .httpAbort 404 none

/-- `BaseQuerySet.get_or_404` from the source. The underlying
`QuerySet.get(*args, **kwargs)` call is represented by its result
`getResult`: either a document or a raised `QError`. The source returns the
document, turns `DoesNotExist` into `_abort_404(_message_404)`, and lets any
other exception propagate. -/
def get_or_404 {α : Type} (getResult : Except QError α) (m : Option String) :
    Outcome α :=
  match getResult with
  | .ok d => .ok d
  | .error .doesNotExist => abort_404 m
  | .error e => .queryError e

/-- `BaseQuerySet.first_or_404` from the source:
`return self.first() or self._abort_404(_message_404)`.
`first()` is represented by its result: `some` document or `none`.
A mongoengine document instance is an ordinary truthy Python object, so the
`or` returns the document when one is found and calls `_abort_404` otherwise. -/
def first_or_404 {α : Type} (firstResult : Option α) (m : Option String) :
    Outcome α :=
  match firstResult with
  | some d => .ok d
  | none => abort_404 m

/-- The owner document of a list field, as `paginate_field` reads it:
`fields` is the in-memory content of the list field named `field_name`
(`getattr(item, field_name)`), and `countAttr` is the value of the
convention attribute `field_name + "_count"` when the document has one
(`getattr(item, field_name + "_count", "")` yields the falsy default `""`
when the attribute is absent, modelled as `none`). -/
structure PyDoc where
  fields : List Nat
  countAttr : Option Nat
deriving DecidableEq, Repr

/-- Modelled from the spec: `ListFieldPagination` lives in the missing
`flask_mongoengine.pagination` module. The spec describes it as a value
object holding the page number, the page size and the total used for
pagination metadata; only the constructor arguments that the claims are
about are modelled. -/
structure ListFieldPagination where
  page : Nat
  perPage : Nat
  total : Nat
deriving DecidableEq, Repr

/-- The total-resolution line shared by both `paginate_field` definitions in
the source: `total = total or count or len(getattr(item, field_name))`,
where `count = getattr(item, field_name + "_count", "")`. Python `or`
returns its left operand when truthy: `None` and `""` are falsy, an integer
is falsy iff it is `0`. -/
def resolveTotal (total : Option Nat) (countAttr : Option Nat)
    (listLen : Nat) : Nat :=
  match total with
  | some t =>
    if t ≠ 0 then t
    else match countAttr with
      | some c => if c ≠ 0 then c else listLen
      | none => listLen
  | none => match countAttr with
    | some c => if c ≠ 0 then c else listLen
    | none => listLen

/-- `Document.paginate_field` from the source: resolves the total from the
explicit argument, the `_count` convention attribute of `self`, or the
length of the list field, and hands it to the `ListFieldPagination`
constructor together with page and page size. -/
def Document.paginate_field (self : PyDoc) (page perPage : Nat)
    (total : Option Nat) : ListFieldPagination :=
  { page := page, perPage := perPage,
    total := resolveTotal total self.countAttr self.fields.length }

/-- `BaseQuerySet.paginate_field` from the source: first runs
`self.get(id=doc_id)` (represented by its result `getResult`; exceptions
propagate), then resolves the total exactly as the document variant does
and hands it to the `ListFieldPagination` constructor. -/
def BaseQuerySet.paginate_field (getResult : Except QError PyDoc)
    (page perPage : Nat) (total : Option Nat) :
    Except QError ListFieldPagination :=
  match getResult with
  | .error e => .error e
  | .ok item =>
    .ok { page := page, perPage := perPage,
          total := resolveTotal total item.countAttr item.fields.length }

/-- A configuration mapping (Flask `app.config` or a user-supplied dict):
an insertion-ordered list of key-value settings. Only emptiness and identity
of the mapping matter to the claims. -/
structure Config where
  entries : List (String × Nat)
deriving DecidableEq, Repr

/-- Python truthiness of an optional mapping: `None` is falsy, a dict is
truthy iff non-empty. Used by `if config:` and `if not self.config:`. -/
def configTruthy : Option Config → Bool
  | none => false
  | some c => c.entries ≠ []

/-- The set of open connections produced for one resolved configuration. -/
structure Connections where
  fromConfig : Config
deriving DecidableEq, Repr

/-- Modelled from the spec: `create_connections` lives in the missing
`flask_mongoengine.connection` module. The spec says connections are
established per the resolved configuration, so the connection set is
modelled as determined by, and recording, the configuration handed to it. -/
def create_connections (c : Config) : Connections := ⟨c⟩

/-- A key of the `app.extensions["mongoengine"]` dictionary. `init_app`
stores the extension instance itself (`ext`, identified by object id);
other code could in principle store keys of other types (`other`), which
`current_mongoengine_instance` must skip. -/
inductive RegKey where
  | ext (id : Nat)
  | other (objId : Nat)
deriving DecidableEq, Repr

/-- The value `{"app": app, "conn": connections}` stored per extension
instance in the registry; the app is recorded by its identity. -/
structure RegEntry where
  appId : Nat
  conn : Connections
deriving DecidableEq, Repr

/-- A Flask application, as this extension sees it: an identity, its own
`app.config`, the `extensions["mongoengine"]` registry (`none` when the
key, or the whole `extensions` attribute, is absent), and whether
`override_json_encoder` has been applied (the missing
`flask_mongoengine.json` module; modelled as a flag). -/
structure FlaskApp where
  appId : Nat
  config : Config
  meRegistry : Option (List (RegKey × RegEntry))
  jsonOverridden : Bool
deriving DecidableEq, Repr

/-- The mutable attributes of a `MongoEngine` extension instance: its
object identity, `self.app` (an app identity or `None`) and `self.config`. -/
structure MEState where
  id : Nat
  app : Option Nat
  config : Option Config
deriving DecidableEq, Repr

/-- `MongoEngine.__init__` with `app=None`: sets `self.app = None` and
`self.config = config`. (When an app is passed, `__init__` additionally
calls `init_app`; the claims compose that call explicitly.) -/
def MongoEngine_new (id : Nat) (config : Option Config) : MEState :=
  ⟨id, none, config⟩

/-- The `app` argument of `init_app`: `None`, a non-Flask object, or a
Flask application. A Flask instance is always truthy, so the source check
`not app or not isinstance(app, Flask)` fires exactly on the first two. -/
inductive AppArg where
  | noneArg
  | nonFlask (objId : Nat)
  | flaskApp (a : FlaskApp)
deriving DecidableEq, Repr

/-- The exceptions `init_app` raises itself. -/
inductive InitError where
  | typeError (msg : String)
  | valueError (msg : String)
deriving DecidableEq, Repr

/-- Lookup in an insertion-ordered dictionary (first binding of the key). -/
def regFind (reg : List (RegKey × RegEntry)) (k : RegKey) : Option RegEntry :=
  match reg with
  | [] => none
  | (k', v) :: rest => if k' = k then some v else regFind rest k

/-- Python dict assignment `d[k] = v`: replace the binding in place when
the key is present, append otherwise. -/
def regUpdate (reg : List (RegKey × RegEntry)) (k : RegKey) (v : RegEntry) :
    List (RegKey × RegEntry) :=
  match reg with
  | [] => [(k, v)]
  | (k', v') :: rest =>
    if k' = k then (k, v) :: rest else (k', v') :: regUpdate rest k v

/-- Everything observable after one `init_app` call: the extension
instance attributes, the (possibly mutated) app object when a Flask app was
passed, the list of configurations handed to `create_connections` during
the call, and the raised exception when the call failed. -/
structure InitResult where
  self : MEState
  app : Option FlaskApp
  connLog : List Config
  error : Option InitError
deriving DecidableEq, Repr

/-- `MongoEngine.init_app` from the source, line by line:
raise `TypeError` unless `app` is a truthy Flask instance; set
`self.app = app`; ensure `app.extensions` and its `"mongoengine"` entry
exist; apply `override_json_encoder(app)`; raise `ValueError` when `self`
is already a key of the registry; resolve `self.config` (passed config if
truthy, else keep `self.config` if truthy, else `app.config`); call
`create_connections(self.config)`; store `{"app": app, "conn": ...}` under
`self` in the registry. -/
def MEState.init_app (self : MEState) (arg : AppArg)
    (config : Option Config) : InitResult :=
  match arg with
  | .noneArg =>
    ⟨self, none, [], some (.typeError "Invalid Flask application instance")⟩
  | .nonFlask _ =>
    ⟨self, none, [], some (.typeError "Invalid Flask application instance")⟩
  | .flaskApp a =>
    let self1 : MEState := { self with app := some a.appId }
    let reg := a.meRegistry.getD []
    let a1 : FlaskApp := { a with jsonOverridden := true,
                                  meRegistry := some reg }
    if (regFind reg (.ext self.id)).isSome then
      ⟨self1, some a1, [],
        some (.valueError "Extension already initialized")⟩
    else
      let self2 :=
        if configTruthy config then { self1 with config := config } else self1
      let self3 :=
        if configTruthy self2.config then self2
        else { self2 with config := some a.config }
      let c := self3.config.getD a.config
      let newReg := regUpdate reg (.ext self.id) ⟨a.appId, create_connections c⟩
      let a2 : FlaskApp := { a1 with meRegistry := some newReg }
      ⟨self3, some a2, [c], none⟩

/-- The `MongoEngine.connection` property from the source:
`current_app.extensions["mongoengine"][self]["conn"]`, resolved against the
application `current` that is active in the calling context. `none` models
the `KeyError` raised when the registry or the entry for `self` is absent. -/
def MEState.connection (self : MEState) (current : FlaskApp) :
    Option Connections :=
  (regFind (current.meRegistry.getD []) (.ext self.id)).map RegEntry.conn

/-- Whether a registry key is a `MongoEngine` instance
(`isinstance(k, MongoEngine)`). -/
def RegKey.isMongoEngine : RegKey → Bool
  | .ext _ => true
  | .other _ => false

/-- `current_mongoengine_instance` from the source:
`me = current_app.extensions.get("mongoengine", {})`, then return the first
key of `me` that is a `MongoEngine` instance; `None` (implicitly) when
there is none. -/
def current_mongoengine_instance (current : FlaskApp) : Option RegKey :=
  ((current.meRegistry.getD []).find? (fun kv => kv.1.isMongoEngine)).map
    Prod.fst

/-- The configuration `init_app` resolves and hands to
`create_connections`: the passed config when truthy, else the config held
by the instance when truthy, else the app config. -/
def resolvedConfig (selfConfig passed : Option Config) (appConfig : Config) :
    Config :=
  if configTruthy passed then passed.getD appConfig
  else if configTruthy selfConfig then selfConfig.getD appConfig
  else appConfig

theorem regFind_update_self (reg : List (RegKey × RegEntry)) (k : RegKey)
    (v : RegEntry) : regFind (regUpdate reg k v) k = some v := by
  induction reg with
  | nil => simp [regUpdate, regFind]
  | cons p rest ih =>
    by_cases h : p.1 = k
    · simp [regUpdate, regFind, h]
    · simp [regUpdate, regFind, h, ih]

theorem regFind_update_ne (reg : List (RegKey × RegEntry)) (k k' : RegKey)
    (v : RegEntry) (h : k' ≠ k) :
    regFind (regUpdate reg k v) k' = regFind reg k' := by
  induction reg with
  | nil => simp [regUpdate, regFind, Ne.symm h]
  | cons p rest ih =>
    by_cases hp : p.1 = k
    · simp [regUpdate, regFind, hp, Ne.symm h, ih]
    · simp [regUpdate, regFind, hp, ih]

theorem init_app_not_flask (e : MEState) (arg : AppArg) (c : Option Config)
    (h : arg = .noneArg ∨ ∃ i, arg = .nonFlask i) :
    e.init_app arg c =
      ⟨e, none, [], some (.typeError "Invalid Flask application instance")⟩ := by
  rcases h with h | ⟨i, h⟩ <;> subst h <;> rfl

theorem init_app_dup (e : MEState) (a : FlaskApp) (c : Option Config)
    (h : (regFind (a.meRegistry.getD []) (.ext e.id)).isSome = true) :
    e.init_app (.flaskApp a) c =
      ⟨{ e with app := some a.appId },
       some { a with jsonOverridden := true, meRegistry := some (a.meRegistry.getD []) },
       [], some (.valueError "Extension already initialized")⟩ := by
  simp [MEState.init_app, h]

theorem init_app_success (e : MEState) (a : FlaskApp) (c : Option Config)
    (h : regFind (a.meRegistry.getD []) (.ext e.id) = none) :
    e.init_app (.flaskApp a) c =
      ⟨⟨e.id, some a.appId, some (resolvedConfig e.config c a.config)⟩,
       some { a with jsonOverridden := true, meRegistry := some (regUpdate (a.meRegistry.getD []) (.ext e.id) ⟨a.appId, create_connections (resolvedConfig e.config c a.config)⟩) },
       [resolvedConfig e.config c a.config], none⟩ := by
  by_cases hc : configTruthy c
  · cases c with
    | none => simp [configTruthy] at hc
    | some cv =>
      simp [MEState.init_app, h, resolvedConfig, hc]
  · by_cases hs : configTruthy e.config
    · cases hcfg : e.config with
      | none => rw [hcfg] at hs; simp [configTruthy] at hs
      | some sv =>
        rw [hcfg] at hs
        simp [MEState.init_app, h, resolvedConfig, hc, hs, hcfg]
    · simp [MEState.init_app, h, resolvedConfig, hc, hs]

end FlaskME

namespace FlaskME

/-- Claim C1 as stated is false: with `_message_404 = ""` (a caller-supplied
message) and a query raising `DoesNotExist`, `get_or_404` aborts with 404 but
does not attach the supplied message, because the source tests Python
truthiness and the empty string is falsy. -/
theorem C1_counterexample :
    get_or_404 (α := Nat) (.error .doesNotExist) (some "") =
      .httpAbort 404 none ∧
    get_or_404 (α := Nat) (.error .doesNotExist) (some "") ≠
      .httpAbort 404 (some "") := by
  constructor
  · rfl
  · decide

/-- Claim C1 (amended): `get_or_404` returns the document when `get`
succeeds; when `get` raises the not-found error it aborts with HTTP 404,
attaching the caller-supplied `_message_404` when a truthy (non-empty) one is
given and no message otherwise; any other query-layer failure (including the
multiple-objects case) propagates unchanged. -/
theorem C1_get_or_404_contract {α : Type} (g : Except QError α)
    (m : Option String) :
    (∀ d : α, g = .ok d → get_or_404 g m = .ok d) ∧
    (g = .error .doesNotExist →
      (msgTruthy m = true → get_or_404 g m = .httpAbort 404 m) ∧
      (msgTruthy m = false → get_or_404 g m = .httpAbort 404 none)) ∧
    (∀ e : QError, e ≠ .doesNotExist → g = .error e →
      get_or_404 g m = .queryError e) := by
  refine ⟨?_, ?_, ?_⟩
  · intro d h; subst h; rfl
  · intro h; subst h
    constructor
    · intro ht; simp [get_or_404, abort_404, ht]
    · intro hf; simp [get_or_404, abort_404, hf]
  · intro e he h; subst h
    cases e with
    | doesNotExist => exact absurd rfl he
    | multipleObjectsReturned => rfl
    | otherError c => rfl

/-- Witness for C1: concrete instantiation with a found document, a
not-found error with a non-empty message, and a multiple-objects error. -/
theorem C1_witness :
    get_or_404 (α := Nat) (.ok 7) (some "gone") = .ok 7 ∧
    get_or_404 (α := Nat) (.error .doesNotExist) (some "gone") =
      .httpAbort 404 (some "gone") ∧
    get_or_404 (α := Nat) (.error .multipleObjectsReturned) (some "gone") =
      .queryError .multipleObjectsReturned := by
  refine ⟨?_, ?_, ?_⟩
  · exact (C1_get_or_404_contract (.ok 7) (some "gone")).1 7 rfl
  · exact ((C1_get_or_404_contract (α := Nat) (.error .doesNotExist)
      (some "gone")).2.1 rfl).1 (by decide)
  · exact (C1_get_or_404_contract (α := Nat)
      (.error .multipleObjectsReturned) (some "gone")).2.2
      .multipleObjectsReturned (by decide) rfl

/-- Claim C8 as stated is false: with an empty result sequence and the
caller-supplied message `""`, `first_or_404` aborts with 404 but carries no
message, because `_abort_404` tests Python truthiness and the empty string
is falsy. -/
theorem C8_counterexample :
    first_or_404 (α := Nat) none (some "") = .httpAbort 404 none ∧
    first_or_404 (α := Nat) none (some "") ≠ .httpAbort 404 (some "") := by
  constructor
  · rfl
  · decide

/-- Claim C8 (amended): `first_or_404` returns the first document when the
result sequence is non-empty; when it yields no document it aborts with an
HTTP 404 carrying the caller-supplied message when a truthy (non-empty) one
is provided and no message otherwise; the abort is a non-local outcome, not
a normal return from this layer. -/
theorem C8_first_or_404_contract {α : Type} (f : Option α)
    (m : Option String) :
    (∀ d : α, f = some d → first_or_404 f m = .ok d) ∧
    (f = none →
      (msgTruthy m = true → first_or_404 f m = .httpAbort 404 m) ∧
      (msgTruthy m = false → first_or_404 f m = .httpAbort 404 none)) ∧
    (f = none → ∀ d : α, first_or_404 f m ≠ .ok d) := by
  refine ⟨?_, ?_, ?_⟩
  · intro d h; subst h; rfl
  · intro h; subst h
    constructor
    · intro ht; simp [first_or_404, abort_404, ht]
    · intro hf; simp [first_or_404, abort_404, hf]
  · intro h d; subst h
    simp only [first_or_404, abort_404]
    cases hm : msgTruthy m <;> simp

/-- Witness for C8: concrete instantiation with a non-empty sequence and an
empty sequence with a non-empty message. -/
theorem C8_witness :
    first_or_404 (α := Nat) (some 3) (some "missing") = .ok 3 ∧
    first_or_404 (α := Nat) none (some "missing") =
      .httpAbort 404 (some "missing") := by
  constructor
  · exact (C8_first_or_404_contract (some 3) (some "missing")).1 3 rfl
  · exact ((C8_first_or_404_contract (α := Nat) none
      (some "missing")).2.1 rfl).1 (by decide)

/-- Claim C2 as stated is false: an explicitly supplied total of `0` is not
used. On a document whose list field has 3 elements and no count attribute,
`paginate_field` with explicit `total = 0` uses `3` for the pagination
metadata, because `total or count or len(...)` tests Python truthiness and
`0` is falsy. -/
theorem C2_counterexample :
    (Document.paginate_field ⟨[10, 20, 30], none⟩ 1 2 (some 0)).total = 3 ∧
    (Document.paginate_field ⟨[10, 20, 30], none⟩ 1 2 (some 0)).total ≠ 0 := by
  constructor
  · rfl
  · decide

/-- Claim C2 (amended): for both `paginate_field` variants, the total used
for pagination metadata is the explicit total argument when supplied and
truthy (non-zero), else the owner document `<field_name>_count` attribute
when present and truthy (non-zero), else the in-memory length of the list
field; in particular a supplied non-zero total is used even when it
disagrees with the in-memory list length. The queryset variant agrees with
the document variant whenever `get(id=doc_id)` returns the document. -/
theorem C2_paginate_field_total (item : PyDoc) (pg pp : Nat)
    (total : Option Nat) :
    (∀ t : Nat, total = some t → t ≠ 0 →
      (Document.paginate_field item pg pp total).total = t) ∧
    ((total = none ∨ total = some 0) → ∀ c : Nat, item.countAttr = some c →
      c ≠ 0 → (Document.paginate_field item pg pp total).total = c) ∧
    ((total = none ∨ total = some 0) →
      (item.countAttr = none ∨ item.countAttr = some 0) →
      (Document.paginate_field item pg pp total).total =
        item.fields.length) ∧
    (BaseQuerySet.paginate_field (.ok item) pg pp total =
      .ok (Document.paginate_field item pg pp total)) := by
  refine ⟨?_, ?_, ?_, rfl⟩
  · intro t ht htz; subst ht
    simp [Document.paginate_field, resolveTotal, htz]
  · intro htot c hc hcz
    rcases htot with h | h <;> subst h <;>
      simp [Document.paginate_field, resolveTotal, hc, hcz]
  · intro htot hcnt
    rcases htot with h | h <;> subst h <;>
      rcases hcnt with h2 | h2 <;>
        simp [Document.paginate_field, resolveTotal, h2]

/-- Witness for C2: a non-zero explicit total of 5 overrides both a count
attribute of 9 and an in-memory length of 2. -/
theorem C2_witness :
    (Document.paginate_field ⟨[1, 2], some 9⟩ 1 2 (some 5)).total = 5 ∧
    BaseQuerySet.paginate_field (.ok ⟨[1, 2], some 9⟩) 1 2 (some 5) =
      .ok (Document.paginate_field ⟨[1, 2], some 9⟩ 1 2 (some 5)) := by
  constructor
  · exact (C2_paginate_field_total ⟨[1, 2], some 9⟩ 1 2 (some 5)).1 5 rfl
      (by decide)
  · exact (C2_paginate_field_total ⟨[1, 2], some 9⟩ 1 2 (some 5)).2.2.2

/-- Claim C3: after a successful `init_app` of an extension instance on an
application, calling `init_app` again on the resulting instance with the
resulting application (with any config) raises the duplicate-initialization
`ValueError` instead of reconfiguring the registered instance. -/
theorem C3_second_init_raises (e : MEState) (a a' : FlaskApp)
    (c1 c2 : Option Config)
    (hok : (e.init_app (.flaskApp a) c1).error = none)
    (happ : (e.init_app (.flaskApp a) c1).app = some a') :
    ((e.init_app (.flaskApp a) c1).self.init_app (.flaskApp a') c2).error =
      some (.valueError "Extension already initialized") := by
  cases hfind : regFind (a.meRegistry.getD []) (.ext e.id) with
  | some v =>
    rw [init_app_dup e a c1 (by simp [hfind])] at hok
    simp at hok
  | none =>
    rw [init_app_success e a c1 hfind] at happ ⊢
    have ha' := Option.some.inj happ
    subst ha'
    rw [init_app_dup]
    simp [regFind_update_self]

/-- Witness for C3: a fresh instance initialized on a fresh application;
the second `init_app` on the results raises the duplicate error. -/
theorem C3_witness :
    (((MongoEngine_new 0 none).init_app (.flaskApp ⟨1, ⟨[]⟩, none, false⟩)
        none).self.init_app
      (.flaskApp ⟨1, ⟨[]⟩, some [(.ext 0, ⟨1, ⟨⟨[]⟩⟩⟩)], true⟩) none).error =
      some (.valueError "Extension already initialized") :=
  C3_second_init_raises (MongoEngine_new 0 none) ⟨1, ⟨[]⟩, none, false⟩
    ⟨1, ⟨[]⟩, some [(.ext 0, ⟨1, ⟨⟨[]⟩⟩⟩)], true⟩ none none rfl rfl

/-- Claim C5: when the `app` argument is `None` or not a Flask instance,
`init_app` raises `TypeError` immediately: the instance attributes are
untouched, no configuration is handed to connection establishment, and no
application object is touched. -/
theorem C5_invalid_app_rejected (e : MEState) (arg : AppArg)
    (c : Option Config) (h : arg = .noneArg ∨ ∃ i, arg = .nonFlask i) :
    (e.init_app arg c).error =
      some (.typeError "Invalid Flask application instance") ∧
    (e.init_app arg c).self = e ∧
    (e.init_app arg c).connLog = [] ∧
    (e.init_app arg c).app = none := by
  rw [init_app_not_flask e arg c h]
  exact ⟨rfl, rfl, rfl, rfl⟩

/-- Witness for C5: `init_app` applied to `None`. -/
theorem C5_witness :
    ((MongoEngine_new 0 none).init_app .noneArg none).error =
      some (.typeError "Invalid Flask application instance") ∧
    ((MongoEngine_new 0 none).init_app .noneArg none).self =
      MongoEngine_new 0 none ∧
    ((MongoEngine_new 0 none).init_app .noneArg none).connLog = [] ∧
    ((MongoEngine_new 0 none).init_app .noneArg none).app = none :=
  C5_invalid_app_rejected (MongoEngine_new 0 none) .noneArg none (Or.inl rfl)

/-- Claim C4 as stated is false, for two independent reasons, each shown at
a concrete input. First, an empty mapping explicitly passed to `init_app`
does not take precedence: with construction config `{"": 1}` and explicitly
passed config `{}`, the call succeeds and hands the construction config to
`create_connections`, because `if config:` tests Python truthiness and an
empty dict is falsy. Second, the claimed priority consults the current
`self.config` attribute, not the config passed at construction: an instance
constructed with config `None` and first initialized on an application with
config `{"": 1}` has `self.config` overwritten to that mapping, so a second
`init_app` on an application whose own config is `{"": 2}`, with no
explicit config, hands the first application's mapping to
`create_connections` instead of the second application's own config. -/
theorem C4_counterexample :
    ((MongoEngine_new 0 (some ⟨[("", 1)]⟩)).init_app
        (.flaskApp ⟨7, ⟨[]⟩, none, false⟩) (some ⟨[]⟩)).error = none ∧
    ((MongoEngine_new 0 (some ⟨[("", 1)]⟩)).init_app
        (.flaskApp ⟨7, ⟨[]⟩, none, false⟩) (some ⟨[]⟩)).connLog =
      [⟨[("", 1)]⟩] ∧
    ((MongoEngine_new 0 (some ⟨[("", 1)]⟩)).init_app
        (.flaskApp ⟨7, ⟨[]⟩, none, false⟩) (some ⟨[]⟩)).connLog ≠
      [⟨[]⟩] ∧
    (((MongoEngine_new 0 none).init_app
        (.flaskApp ⟨1, ⟨[("", 1)]⟩, none, false⟩) none).self.init_app
        (.flaskApp ⟨2, ⟨[("", 2)]⟩, none, false⟩) none).error = none ∧
    (((MongoEngine_new 0 none).init_app
        (.flaskApp ⟨1, ⟨[("", 1)]⟩, none, false⟩) none).self.init_app
        (.flaskApp ⟨2, ⟨[("", 2)]⟩, none, false⟩) none).connLog =
      [⟨[("", 1)]⟩] ∧
    (((MongoEngine_new 0 none).init_app
        (.flaskApp ⟨1, ⟨[("", 1)]⟩, none, false⟩) none).self.init_app
        (.flaskApp ⟨2, ⟨[("", 2)]⟩, none, false⟩) none).connLog ≠
      [⟨[("", 2)]⟩] := by
  refine ⟨rfl, rfl, ?_, rfl, rfl, ?_⟩ <;> decide

/-- Claim C4 (amended): for every successful `init_app`, the configuration
handed to connection establishment is resolved with priority: the config
explicitly passed to `init_app` when truthy (non-`None` and non-empty),
else the current `self.config` attribute of the instance when truthy —
which equals the config passed at construction on a first initialization
but may have been overwritten by a previous `init_app` call — else the
application configuration mapping; and the stored registry entry holds
exactly the connections created from that configuration. -/
theorem C4_config_priority (e : MEState) (cp : Option Config) (a : FlaskApp)
    (hfresh : regFind (a.meRegistry.getD []) (.ext e.id) = none) :
    (e.init_app (.flaskApp a) cp).error = none ∧
    (∀ c : Config, cp = some c → c.entries ≠ [] →
      (e.init_app (.flaskApp a) cp).connLog = [c]) ∧
    (configTruthy cp = false → ∀ c : Config, e.config = some c →
      c.entries ≠ [] → (e.init_app (.flaskApp a) cp).connLog = [c]) ∧
    (configTruthy cp = false → configTruthy e.config = false →
      (e.init_app (.flaskApp a) cp).connLog = [a.config]) ∧
    (∀ (a2 : FlaskApp) (cc : Config),
      (e.init_app (.flaskApp a) cp).app = some a2 →
      (e.init_app (.flaskApp a) cp).connLog = [cc] →
      regFind (a2.meRegistry.getD []) (.ext e.id) =
        some ⟨a.appId, create_connections cc⟩) ∧
    (∀ (i : Nat) (c0 : Option Config), (MongoEngine_new i c0).config = c0) := by
  rw [init_app_success e a cp hfresh]
  refine ⟨rfl, ?_, ?_, ?_, ?_, fun i c0 => rfl⟩
  · intro c hc hne; subst hc
    simp [resolvedConfig, configTruthy, hne]
  · intro hcp c hc hne
    unfold resolvedConfig
    rw [hcp, hc]
    simp [configTruthy, hne]
  · intro hcp hc0
    unfold resolvedConfig
    rw [hcp, hc0]
    simp
  · intro a2 cc ha2 hcc
    have ha2e := Option.some.inj ha2
    subst ha2e
    have hcce := List.singleton_injective (α := Config) hcc
    subst hcce
    simp [regFind_update_self]

/-- Witness for C4: a truthy passed config overrides a truthy instance
config on a fresh instance; and a reused instance whose config attribute
was overwritten to the first application's mapping hands that mapping, not
the second application's own config, to connection establishment. -/
theorem C4_witness :
    ((MongoEngine_new 0 (some ⟨[("", 1)]⟩)).init_app
        (.flaskApp ⟨7, ⟨[]⟩, none, false⟩) (some ⟨[("", 2)]⟩)).error = none ∧
    ((MongoEngine_new 0 (some ⟨[("", 1)]⟩)).init_app
        (.flaskApp ⟨7, ⟨[]⟩, none, false⟩) (some ⟨[("", 2)]⟩)).connLog =
      [⟨[("", 2)]⟩] ∧
    ((⟨0, some 1, some ⟨[("", 1)]⟩⟩ : MEState).init_app
        (.flaskApp ⟨2, ⟨[("", 2)]⟩, none, false⟩) none).connLog =
      [⟨[("", 1)]⟩] := by
  have h1 := C4_config_priority (MongoEngine_new 0 (some ⟨[("", 1)]⟩))
    (some ⟨[("", 2)]⟩) ⟨7, ⟨[]⟩, none, false⟩ rfl
  have h2 := C4_config_priority (⟨0, some 1, some ⟨[("", 1)]⟩⟩ : MEState)
    none ⟨2, ⟨[("", 2)]⟩, none, false⟩ rfl
  exact ⟨h1.1, h1.2.1 ⟨[("", 2)]⟩ rfl (by decide),
    h2.2.2.1 rfl ⟨[("", 1)]⟩ rfl (by decide)⟩

/-- Claim C6: two distinct extension instances both initialize successfully
on the same application; the registry keys entries by instance identity, so
the two keys are distinct, the second initialization leaves the first entry
in place with its own `{app, connections}` value, and the second entry holds
its own connection set. -/
theorem C6_distinct_instances (e1 e2 : MEState) (a : FlaskApp)
    (c1 c2 : Option Config) (a1 a2 : FlaskApp)
    (hne : e1.id ≠ e2.id)
    (h1 : regFind (a.meRegistry.getD []) (.ext e1.id) = none)
    (h2 : regFind (a.meRegistry.getD []) (.ext e2.id) = none)
    (ha1 : (e1.init_app (.flaskApp a) c1).app = some a1)
    (ha2 : (e2.init_app (.flaskApp a1) c2).app = some a2) :
    (e1.init_app (.flaskApp a) c1).error = none ∧
    (e2.init_app (.flaskApp a1) c2).error = none ∧
    RegKey.ext e1.id ≠ RegKey.ext e2.id ∧
    regFind (a2.meRegistry.getD []) (.ext e1.id) =
      some ⟨a.appId,
            create_connections (resolvedConfig e1.config c1 a.config)⟩ ∧
    regFind (a2.meRegistry.getD []) (.ext e2.id) =
      some ⟨a1.appId,
            create_connections (resolvedConfig e2.config c2 a1.config)⟩ := by
  rw [init_app_success e1 a c1 h1] at ha1 ⊢
  obtain rfl := Option.some.inj ha1
  have h2' : regFind
      (regUpdate (a.meRegistry.getD []) (.ext e1.id)
        ⟨a.appId, create_connections (resolvedConfig e1.config c1 a.config)⟩)
      (.ext e2.id) = none := by
    rw [regFind_update_ne _ _ _ _ (by simp [Ne.symm hne])]
    exact h2
  rw [init_app_success e2 _ c2 (by simpa using h2')] at ha2 ⊢
  obtain rfl := Option.some.inj ha2
  refine ⟨rfl, rfl, by simp [hne], ?_, ?_⟩
  · simp only [Option.getD_some]
    rw [regFind_update_ne _ _ _ _ (by simp [hne])]
    exact regFind_update_self _ _ _
  · simp only [Option.getD_some]
    exact regFind_update_self _ _ _

/-- Witness for C6: two fresh instances (ids 0 and 1) initialized on one
fresh application; both entries are present afterwards. -/
theorem C6_witness :
    ((MongoEngine_new 0 none).init_app (.flaskApp ⟨5, ⟨[]⟩, none, false⟩)
        none).error = none ∧
    ((MongoEngine_new 1 none).init_app
        (.flaskApp ⟨5, ⟨[]⟩, some [(.ext 0, ⟨5, ⟨⟨[]⟩⟩⟩)], true⟩)
        none).error = none ∧
    RegKey.ext 0 ≠ RegKey.ext 1 ∧
    regFind (((⟨5, ⟨[]⟩, some [(.ext 0, ⟨5, ⟨⟨[]⟩⟩⟩), (.ext 1, ⟨5, ⟨⟨[]⟩⟩⟩)],
        true⟩ : FlaskApp)).meRegistry.getD []) (.ext 0) = some ⟨5, ⟨⟨[]⟩⟩⟩ ∧
    regFind (((⟨5, ⟨[]⟩, some [(.ext 0, ⟨5, ⟨⟨[]⟩⟩⟩), (.ext 1, ⟨5, ⟨⟨[]⟩⟩⟩)],
        true⟩ : FlaskApp)).meRegistry.getD []) (.ext 1) =
      some ⟨5, ⟨⟨[]⟩⟩⟩ := by
  have h := C6_distinct_instances (MongoEngine_new 0 none)
    (MongoEngine_new 1 none) ⟨5, ⟨[]⟩, none, false⟩ none none
    ⟨5, ⟨[]⟩, some [(.ext 0, ⟨5, ⟨⟨[]⟩⟩⟩)], true⟩
    ⟨5, ⟨[]⟩, some [(.ext 0, ⟨5, ⟨⟨[]⟩⟩⟩), (.ext 1, ⟨5, ⟨⟨[]⟩⟩⟩)], true⟩
    (by decide) rfl rfl rfl rfl
  exact ⟨h.1, h.2.1, h.2.2.1, h.2.2.2.1, h.2.2.2.2⟩

/-- Claim C7: after the same extension instance has been initialized on two
applications, reading the `connection` property resolves against whatever
application is current at lookup time: with the final instance state, the
lookup under the first application yields the connections stored there, and
the lookup under the second application yields the connections stored
there, rather than any handle captured at initialization time. -/
theorem C7_connection_follows_current_app (e e1 e2 : MEState)
    (a1 a2 a1r a2r : FlaskApp) (c1 c2 : Option Config)
    (h1 : regFind (a1.meRegistry.getD []) (.ext e.id) = none)
    (h2 : regFind (a2.meRegistry.getD []) (.ext e.id) = none)
    (ha1 : (e.init_app (.flaskApp a1) c1).app = some a1r)
    (he1 : (e.init_app (.flaskApp a1) c1).self = e1)
    (ha2 : (e1.init_app (.flaskApp a2) c2).app = some a2r)
    (he2 : (e1.init_app (.flaskApp a2) c2).self = e2) :
    e2.connection a1r =
      some (create_connections (resolvedConfig e.config c1 a1.config)) ∧
    e2.connection a2r =
      some (create_connections (resolvedConfig e1.config c2 a2.config)) := by
  rw [init_app_success e a1 c1 h1] at ha1 he1
  obtain rfl := Option.some.inj ha1
  obtain rfl := he1
  rw [init_app_success _ a2 c2 (by simpa using h2)] at ha2 he2
  obtain rfl := Option.some.inj ha2
  obtain rfl := he2
  constructor
  · simp [MEState.connection, regFind_update_self]
  · simp [MEState.connection, regFind_update_self]

/-- Witness for C7: one instance initialized on two applications with two
different explicit configs; the same final instance state resolves to the
connections of whichever application is current. -/
theorem C7_witness :
    (⟨0, some 2, some ⟨[("", 2)]⟩⟩ : MEState).connection
      ⟨1, ⟨[]⟩, some [(.ext 0, ⟨1, ⟨⟨[("", 1)]⟩⟩⟩)], true⟩ =
      some ⟨⟨[("", 1)]⟩⟩ ∧
    (⟨0, some 2, some ⟨[("", 2)]⟩⟩ : MEState).connection
      ⟨2, ⟨[]⟩, some [(.ext 0, ⟨2, ⟨⟨[("", 2)]⟩⟩⟩)], true⟩ =
      some ⟨⟨[("", 2)]⟩⟩ := by
  have h := C7_connection_follows_current_app (MongoEngine_new 0 none)
    ⟨0, some 1, some ⟨[("", 1)]⟩⟩ ⟨0, some 2, some ⟨[("", 2)]⟩⟩
    ⟨1, ⟨[]⟩, none, false⟩ ⟨2, ⟨[]⟩, none, false⟩
    ⟨1, ⟨[]⟩, some [(.ext 0, ⟨1, ⟨⟨[("", 1)]⟩⟩⟩)], true⟩
    ⟨2, ⟨[]⟩, some [(.ext 0, ⟨2, ⟨⟨[("", 2)]⟩⟩⟩)], true⟩
    (some ⟨[("", 1)]⟩) (some ⟨[("", 2)]⟩) rfl rfl rfl rfl rfl rfl
  exact h

/-- Claim C9: on the duplicate-initialization path, `init_app` raises the
`ValueError` with the application-side state unchanged: no configuration is
handed to connection establishment and every registry lookup on the
returned application agrees with the original, but the instance attribute
`self.app` has already been reassigned to the passed application before
the error is raised. -/
theorem C9_duplicate_error_frame (e : MEState) (a : FlaskApp)
    (c : Option Config)
    (hdup : (regFind (a.meRegistry.getD []) (.ext e.id)).isSome = true) :
    (e.init_app (.flaskApp a) c).error =
      some (.valueError "Extension already initialized") ∧
    (e.init_app (.flaskApp a) c).connLog = [] ∧
    (∀ a' : FlaskApp, (e.init_app (.flaskApp a) c).app = some a' →
      ∀ k : RegKey, regFind (a'.meRegistry.getD []) k =
        regFind (a.meRegistry.getD []) k) ∧
    (e.init_app (.flaskApp a) c).self = { e with app := some a.appId } := by
  rw [init_app_dup e a c hdup]
  refine ⟨rfl, rfl, ?_, rfl⟩
  intro a' ha' k
  obtain rfl := Option.some.inj ha'
  rfl

/-- Witness for C9: an instance last bound to application 2 hits the
duplicate error on application 1; its `app` attribute now names
application 1 while the registry entry is untouched. -/
theorem C9_witness :
    ((⟨0, some 2, none⟩ : MEState).init_app
        (.flaskApp ⟨1, ⟨[]⟩, some [(.ext 0, ⟨1, ⟨⟨[]⟩⟩⟩)], true⟩)
        none).error = some (.valueError "Extension already initialized") ∧
    ((⟨0, some 2, none⟩ : MEState).init_app
        (.flaskApp ⟨1, ⟨[]⟩, some [(.ext 0, ⟨1, ⟨⟨[]⟩⟩⟩)], true⟩)
        none).connLog = [] ∧
    ((⟨0, some 2, none⟩ : MEState).init_app
        (.flaskApp ⟨1, ⟨[]⟩, some [(.ext 0, ⟨1, ⟨⟨[]⟩⟩⟩)], true⟩)
        none).self = ⟨0, some 1, none⟩ ∧
    (some 1 : Option Nat) ≠ some 2 ∧
    regFind (((⟨1, ⟨[]⟩, some [(.ext 0, ⟨1, ⟨⟨[]⟩⟩⟩)], true⟩ :
        FlaskApp)).meRegistry.getD []) (.ext 0) = some ⟨1, ⟨⟨[]⟩⟩⟩ := by
  have h := C9_duplicate_error_frame ⟨0, some 2, none⟩
    ⟨1, ⟨[]⟩, some [(.ext 0, ⟨1, ⟨⟨[]⟩⟩⟩)], true⟩ none rfl
  refine ⟨h.1, h.2.1, h.2.2.2, by decide, ?_⟩
  exact (h.2.2.1 ⟨1, ⟨[]⟩, some [(.ext 0, ⟨1, ⟨⟨[]⟩⟩⟩)], true⟩ rfl
    (.ext 0)).trans rfl

/-- Claim C10: `current_mongoengine_instance` returns some key of the
current application registry that is a `MongoEngine` instance whenever at
least one such key exists, and returns `None` rather than raising when the
registry is absent or contains no `MongoEngine`-instance key. -/
theorem C10_current_instance (f : FlaskApp) :
    ((∃ kv ∈ f.meRegistry.getD [], kv.1.isMongoEngine = true) →
      ∃ k : RegKey, current_mongoengine_instance f = some k ∧
        k.isMongoEngine = true ∧
        ∃ v : RegEntry, (k, v) ∈ f.meRegistry.getD []) ∧
    (f.meRegistry = none → current_mongoengine_instance f = none) ∧
    ((∀ kv ∈ f.meRegistry.getD [], kv.1.isMongoEngine = false) →
      current_mongoengine_instance f = none) := by
  refine ⟨?_, ?_, ?_⟩
  · intro hex
    have hsome : ((f.meRegistry.getD []).find?
        (fun kv => kv.1.isMongoEngine)).isSome := by
      rw [List.find?_isSome]
      obtain ⟨kv, hmem, hp⟩ := hex
      exact ⟨kv, hmem, hp⟩
    obtain ⟨kv, hfind⟩ := Option.isSome_iff_exists.mp hsome
    refine ⟨kv.1, ?_, ?_, kv.2, ?_⟩
    · simp [current_mongoengine_instance, hfind]
    · have hp := List.find?_some hfind
      simpa using hp
    · exact List.mem_of_find?_eq_some hfind
  · intro h
    simp [current_mongoengine_instance, h]
  · intro h
    have : (f.meRegistry.getD []).find? (fun kv => kv.1.isMongoEngine)
        = none := by
      rw [List.find?_eq_none]
      intro kv hmem
      simp [h kv hmem]
    simp [current_mongoengine_instance, this]

/-- Witness for C10: a registry holding a non-`MongoEngine` key followed by
a `MongoEngine` key; the returned key is a `MongoEngine` key of the
registry. -/
theorem C10_witness :
    ∃ k : RegKey,
      current_mongoengine_instance
        ⟨9, ⟨[]⟩, some [(.other 3, ⟨9, ⟨⟨[]⟩⟩⟩), (.ext 5, ⟨9, ⟨⟨[]⟩⟩⟩)],
         true⟩ = some k ∧
      k.isMongoEngine = true ∧
      ∃ v : RegEntry, (k, v) ∈
        ((⟨9, ⟨[]⟩, some [(.other 3, ⟨9, ⟨⟨[]⟩⟩⟩), (.ext 5, ⟨9, ⟨⟨[]⟩⟩⟩)],
          true⟩ : FlaskApp)).meRegistry.getD [] :=
  (C10_current_instance
    ⟨9, ⟨[]⟩, some [(.other 3, ⟨9, ⟨⟨[]⟩⟩⟩), (.ext 5, ⟨9, ⟨⟨[]⟩⟩⟩)],
     true⟩).1 ⟨(.ext 5, ⟨9, ⟨⟨[]⟩⟩⟩), by simp, rfl⟩

end FlaskME
